import Mathlib

/-!
Verification development for the TeeTimeBot repository.

The definitions below are a shallow embedding of the code in
`parallel_booking.py`, `config_reader.py`, `lambda_handler.py` and
`clubhouse_bot.py`.  Pure computations are translated to Lean functions;
the thread-parallel worker pool of `run_parallel_booking` is modelled as
an interleaving semantics: every lock-protected coordinator operation and
every atomic queue operation is one step of a per-worker step function,
and a schedule (a list of worker indices) chooses which worker performs
the next atomic step.  Quantifying over all schedules covers every
interleaving of the worker threads.
-/

namespace TeeTimeBot

/-- A single tee time preference (config_reader.py, class TeeTimePreference).
Numeric fields parsed with Python `int(...)` are modelled as `Int`. -/
structure TeeTimePreference where
  priority : Int
  time : String
  hole : Int
  holes_to_play : Int
  transport : String
deriving Repr, DecidableEq

/-- Complete configuration (config_reader.py, class TeeTimeConfig). -/
structure TeeTimeConfig where
  tee_times_to_book : Int
  preferences : List TeeTimePreference
deriving Repr, DecidableEq

/-- Default fallback configuration (config_reader.py, get_default_config,
lines 131-138). -/
def get_default_config : TeeTimeConfig :=
  { tee_times_to_book := 1,
    preferences :=
      [{ priority := 1, time := "8:07", hole := 10, holes_to_play := 18, transport := "CART" }] }

/-- One entry of `BookingCoordinator.results` (parallel_booking.py lines 59-67). -/
structure SuccessRecord where
  worker : Nat
  time : String
  hole : Int
  holes_to_play : Int
  transport : String
  priority : Int
  guests_added : Nat
deriving Repr, DecidableEq

/-- One entry of `BookingCoordinator.errors` (parallel_booking.py lines 71-77).
The Python dict stores the string `"N/A"` for `hole` and `priority` when no
preference was drawn; those heterogeneous fields are modelled with `Option`,
`none` standing for the `"N/A"` placeholder. -/
structure FailureRecord where
  worker : Nat
  time : String
  hole : Option Int
  priority : Option Int
  reason : String
deriving Repr, DecidableEq

/-- Coordinator state (parallel_booking.py lines 45-54, class BookingCoordinator).
The `threading.Lock` field is modelled by making each of the three operations
below a single atomic state transformation. -/
structure BookingCoordinator where
  preference_queue : List TeeTimePreference
  target_bookings : Int
  booking_count : Nat := 0
  results : List SuccessRecord := []
  errors : List FailureRecord := []
deriving Repr, DecidableEq

/-- `BookingCoordinator.record_success` (lines 56-67): under the lock,
increment the count and append a success record. -/
def record_success (c : BookingCoordinator) (worker_id : Nat) (pref : TeeTimePreference)
    (guests_added : Nat) : BookingCoordinator :=
  { c with
    booking_count := c.booking_count + 1,
    results := c.results ++
      [{ worker := worker_id, time := pref.time, hole := pref.hole,
         holes_to_play := pref.holes_to_play, transport := pref.transport,
         priority := pref.priority, guests_added := guests_added }] }

/-- `BookingCoordinator.record_failure` (lines 69-77): under the lock,
append a failure record; the preference may be absent. -/
def record_failure (c : BookingCoordinator) (worker_id : Nat)
    (pref : Option TeeTimePreference) (reason : String) : BookingCoordinator :=
  { c with
    errors := c.errors ++
      [{ worker := worker_id,
         time := match pref with | some p => p.time | none => "N/A",
         hole := pref.map TeeTimePreference.hole,
         priority := pref.map TeeTimePreference.priority,
         reason := reason }] }

/-- `BookingCoordinator.target_reached` (lines 79-81). -/
def target_reached (c : BookingCoordinator) : Bool :=
  decide (c.target_bookings ≤ (c.booking_count : Int))

/-- One lock-serialized coordinator call.  Because every call holds the single
lock, any concurrent history of calls is equivalent to some sequence of them. -/
inductive CoordOp
  | success (worker_id : Nat) (pref : TeeTimePreference) (guests_added : Nat)
  | failure (worker_id : Nat) (pref : Option TeeTimePreference) (reason : String)
  | query
deriving Repr, DecidableEq

/-- Apply one coordinator call; `query` is `target_reached`, which mutates nothing. -/
def applyOp (c : BookingCoordinator) : CoordOp → BookingCoordinator
  | CoordOp.success w p g => record_success c w p g
  | CoordOp.failure w p r => record_failure c w p r
  | CoordOp.query => c

/-- Apply a lock-serialized sequence of coordinator calls. -/
def applyOps (ops : List CoordOp) (c : BookingCoordinator) : BookingCoordinator :=
  ops.foldl applyOp c

/-- Python `str.split(sep)` for a one-character separator, over the character
list of the string.  On the empty list it returns `[[]]`, as Python's split
returns `[""]`. -/
def pySplit (sep : Char) : List Char → List (List Char)
  | [] => [[]]
  | c :: cs =>
    let rest := pySplit sep cs
    if c = sep then [] :: rest
    else
      match rest with
      | [] => [[c]]
      | r :: rs => (c :: r) :: rs

/-- Digits of a chunk read left to right; `none` when empty or when a
non-digit occurs, modelling the `ValueError` of Python `int(...)`. -/
def parseDigits (cs : List Char) : Option Nat :=
  if cs.isEmpty then none
  else
    cs.foldl
      (fun acc c =>
        match acc with
        | none => none
        | some n => if c.isDigit then some (n * 10 + (c.toNat - 48)) else none)
      (some 0)

/-- Python `int(...)` on a chunk: an optional sign followed by one or more
digits (surrounding whitespace is not modelled). -/
def pyInt (cs : List Char) : Option Int :=
  match cs with
  | '-' :: rest => (parseDigits rest).map (fun n => -(n : Int))
  | '+' :: rest => (parseDigits rest).map (fun n => (n : Int))
  | _ => (parseDigits cs).map (fun n => (n : Int))

/-- `_parse_open_time` (parallel_booking.py lines 84-87): split on `:` and
convert the first two pieces with `int(...)`; `none` models the exception
raised when a piece is missing or not an integer. -/
def _parse_open_time (tee_time_open : String) : Option (Int × Int) :=
  match pySplit ':' tee_time_open.data with
  | h :: m :: _ =>
    match pyInt h, pyInt m with
    | some hh, some mm => some (hh, mm)
    | _, _ => none
  | _ => none

/-- The current wall clock in the fixed America/New_York zone, at microsecond
resolution, within the current day.  The zone offset is taken constant over
the day (daylight-saving transition days are not modelled), so wall-clock
differences equal real durations and the offsets of `now` and of the same-day
`replace` target cancel. -/
structure NowET where
  hour : Nat
  minute : Nat
  second : Nat
  microsecond : Nat
deriving Repr, DecidableEq

/-- Microseconds since local midnight. -/
def nowUsec (t : NowET) : Int :=
  (((t.hour * 3600 + t.minute * 60 + t.second) * 1000000 + t.microsecond : Nat) : Int)

/-- Effect of the release gate on the calling worker: suspend for a duration
(in microseconds), or proceed at once. -/
inductive GateAction
  | sleep (usec : Int)
  | proceed
deriving Repr, DecidableEq

/-- `_wait_until_open` (parallel_booking.py lines 90-104): parse the configured
open time, build the same-day target instant via `replace`, compute the signed
difference to now, and sleep exactly that long iff it is positive.  `none`
models the exceptions of `_parse_open_time` and of `replace` on an
out-of-range hour or minute. -/
def _wait_until_open (now : NowET) (tee_time_open : String) : Option GateAction :=
  match _parse_open_time tee_time_open with
  | none => none
  | some (oh, om) =>
    if oh < 0 ∨ 23 < oh ∨ om < 0 ∨ 59 < om then none
    else
      let delta : Int := (oh * 3600 + om * 60) * 1000000 - nowUsec now
      if 0 < delta then some (GateAction.sleep delta) else some GateAction.proceed

/-- Python `date.weekday()` on a proleptic Gregorian ordinal (Monday = 0,
Saturday = 5); ordinal 1 is 0001-01-01, a Monday. -/
def pyWeekday (ordinal : Nat) : Nat := (ordinal + 6) % 7

/-- The four accepted input forms of `get_next_saturday` (clubhouse_bot.py
lines 37-49); each constructor carries the ordinal of the base date the input
reduces to (today for `None`, the date itself, the datetime's `.date()`, or
the date parsed from a valid `YYYY-MM-DD` string). -/
inductive DateInput
  | todayIs (ordinal : Nat)
  | fromDate (ordinal : Nat)
  | fromDatetime (ordinal : Nat)
  | fromParsedStr (ordinal : Nat)
deriving Repr, DecidableEq

/-- The base ordinal each input form reduces to. -/
def DateInput.base : DateInput → Nat
  | todayIs o => o
  | fromDate o => o
  | fromDatetime o => o
  | fromParsedStr o => o

/-- `get_next_saturday` (clubhouse_bot.py lines 15-57), acting on ordinals:
`days_ahead = (5 - base.weekday() + 7) % 7`, bumped to 7 when 0.  Since
`weekday ≤ 6`, the Python expression equals `(12 - weekday) % 7`, which has
no underflow in `Nat`. -/
def get_next_saturday (from_date : DateInput) : Nat :=
  let base := from_date.base
  let days_ahead0 := (5 + 7 - pyWeekday base) % 7
  let days_ahead := if days_ahead0 = 0 then 7 else days_ahead0
  base + days_ahead

/-- Outcome of a call to `get_config_from_sheets`: a configuration, or a
raised exception carrying a message. -/
inductive SheetsResult
  | ok (config : TeeTimeConfig)
  | exn (msg : String)
deriving Repr, DecidableEq

/-- Configuration selection of `handler` (lambda_handler.py lines 33-43).
`sheet_id = none` models `GOOGLE_SHEET_ID` unset; the empty string is falsy
in Python and also takes the default branch.  The function is total: every
branch yields a configuration and the handler continues with it. -/
def selectConfig (sheet_id : Option String) (fetch : String → SheetsResult) : TeeTimeConfig :=
  match sheet_id with
  | some sid =>
    if sid = "" then get_default_config
    else
      match fetch sid with
      | SheetsResult.ok c => c
      | SheetsResult.exn _ => get_default_config
  | none => get_default_config

/-- Outcome of a worker's setup phase (booking_worker, lines 124-158): login,
navigation and date lookup can each fail with a recorded reason; `fault`
models any other exception reaching the outer handler during setup. -/
inductive SetupOutcome
  | ok
  | login_failed
  | navigation_failed
  | date_not_found
  | fault
deriving Repr, DecidableEq

/-- Outcome of one claim attempt (`select_tee_time` plus
`add_guests_to_booking`, lines 173-179): claimed with a number of guests
attached, reported unavailable, or an unexpected exception. -/
inductive ClaimOutcome
  | claimed (guests_added : Nat)
  | unavailable
  | fault
deriving Repr, DecidableEq

/-- Control point of one worker thread inside `booking_worker`
(parallel_booking.py lines 107-201): before setup, at the `while` condition
(line 161), about to call `get_nowait` (line 163), holding a drawn preference
about to attempt it (lines 173-188) together with its hand-out index, or
terminated. -/
inductive WorkerPhase
  | setup
  | checking
  | taking
  | attempting (idx : Nat) (pref : TeeTimePreference)
  | done
deriving Repr, DecidableEq

/-- Global state of a run: the shared coordinator (whose `preference_queue`
is the shared work queue), the phase of every worker thread, and a ghost log
of hand-out events `(worker index, preference)` recording each atomic
`get_nowait` that returned a preference. -/
structure Sys where
  coord : BookingCoordinator
  workers : List WorkerPhase
  handed : List (Nat × TeeTimePreference)
deriving Repr, DecidableEq

/-- Replace the phase of worker `i`. -/
def setWorker (s : Sys) (i : Nat) (ph : WorkerPhase) : Sys :=
  { s with workers := s.workers.set i ph }

/-- One atomic step of worker `i` (0-based index; its recorded worker id is
`i + 1` as in line 248).  Setup outcomes are given by `sOr`; the claim
outcome of the preference handed out `idx`-th is `oc idx pref`, so an
adversary may choose outcomes per attempt event.  A worker whose claim
attempt faults transitions to `done` with no record: the exception escapes
the `while` loop to the handler at line 190, which only logs. -/
def stepW (sOr : Nat → SetupOutcome) (oc : Nat → TeeTimePreference → ClaimOutcome)
    (s : Sys) (i : Nat) : Sys :=
  match s.workers[i]? with
  | some WorkerPhase.setup =>
    match sOr i with
    | SetupOutcome.ok => setWorker s i WorkerPhase.checking
    | SetupOutcome.login_failed =>
      setWorker { s with coord := record_failure s.coord (i + 1) none "login_failed" } i
        WorkerPhase.done
    | SetupOutcome.navigation_failed =>
      setWorker { s with coord := record_failure s.coord (i + 1) none "navigation_failed" } i
        WorkerPhase.done
    | SetupOutcome.date_not_found =>
      setWorker { s with coord := record_failure s.coord (i + 1) none "date_not_found" } i
        WorkerPhase.done
    | SetupOutcome.fault => setWorker s i WorkerPhase.done
  | some WorkerPhase.checking =>
    if target_reached s.coord then setWorker s i WorkerPhase.done
    else setWorker s i WorkerPhase.taking
  | some WorkerPhase.taking =>
    match s.coord.preference_queue with
    | [] => setWorker s i WorkerPhase.done
    | pref :: rest =>
      { coord := { s.coord with preference_queue := rest },
        workers := s.workers.set i (WorkerPhase.attempting s.handed.length pref),
        handed := s.handed ++ [(i, pref)] }
  | some (WorkerPhase.attempting idx pref) =>
    match oc idx pref with
    | ClaimOutcome.claimed g =>
      setWorker { s with coord := record_success s.coord (i + 1) pref g } i WorkerPhase.done
    | ClaimOutcome.unavailable =>
      setWorker { s with coord := record_failure s.coord (i + 1) (some pref) "unavailable" } i
        WorkerPhase.checking
    | ClaimOutcome.fault => setWorker s i WorkerPhase.done
  | some WorkerPhase.done => s
  | none => s

/-- Run the workers under a schedule: each entry names the worker that
performs the next atomic step (entries naming finished or nonexistent
workers are no-ops). -/
def runSched (sOr : Nat → SetupOutcome) (oc : Nat → TeeTimePreference → ClaimOutcome)
    (sched : List Nat) (s : Sys) : Sys :=
  sched.foldl (stepW sOr oc) s

/-- Initial state built by `run_parallel_booking` (lines 231-252): the queue
seeded with the preferences in order, a fresh coordinator with the requested
target, and `w` workers about to start. -/
def initSys (prefs : List TeeTimePreference) (n : Int) (w : Nat) : Sys :=
  { coord := { preference_queue := prefs, target_bookings := n },
    workers := List.replicate w WorkerPhase.setup,
    handed := [] }

/-- The result dict of `run_parallel_booking` (lines 222-229 and 260-266);
`reason` is present only on the validation-error path. -/
structure Report where
  status : String
  reason : Option String
  requested : Int
  booked_count : Nat
  booked : List SuccessRecord
  unavailable : List FailureRecord
deriving Repr, DecidableEq

/-- Outcome of one orchestrator run: the report, how many worker threads were
spawned, and the final shared state (`none` on the validation-error path,
where no coordinator, queue or worker is created). -/
structure RunResult where
  report : Report
  num_workers : Nat
  final : Option Sys
deriving Repr, DecidableEq

/-- `run_parallel_booking` (parallel_booking.py lines 204-266).  `sched` is
the interleaving of worker steps realized before the join/deadline of lines
254-258; a schedule that stops early models workers abandoned at the
deadline.  Quantifying over all schedules covers every interleaving. -/
def run_parallel_booking (sOr : Nat → SetupOutcome) (oc : Nat → TeeTimePreference → ClaimOutcome)
    (sched : List Nat) (config : TeeTimeConfig) : RunResult :=
  let n := config.tee_times_to_book
  let prefs := config.preferences
  if n ≤ 0 ∨ prefs.length = 0 then
    let rep : Report :=
      { status := "error"
        reason := some "no preferences or zero bookings requested"
        requested := n
        booked_count := 0
        booked := []
        unavailable := [] }
    { report := rep, num_workers := 0, final := none }
  else
    let num_workers := (min n (prefs.length : Int)).toNat
    let s := runSched sOr oc sched (initSys prefs n num_workers)
    let rep : Report :=
      { status := if n ≤ (s.coord.booking_count : Int) then "ok" else "partial"
        reason := none
        requested := n
        booked_count := s.coord.booking_count
        booked := s.coord.results
        unavailable := s.coord.errors }
    { report := rep, num_workers := num_workers, final := some s }

/-- Is a phase the `attempting` phase? -/
def isAttempting : WorkerPhase → Bool
  | WorkerPhase.attempting _ _ => true
  | _ => false

/-- Is a phase the terminal phase? -/
def isDone : WorkerPhase → Bool
  | WorkerPhase.done => true
  | _ => false

/-- Number of workers currently holding a drawn preference. -/
def countAttempting (ws : List WorkerPhase) : Nat := ws.countP isAttempting

/-- Number of terminated workers. -/
def countDone (ws : List WorkerPhase) : Nat := ws.countP isDone

/-- Number of success records credited to worker id `w`. -/
def resultsFor (c : BookingCoordinator) (w : Nat) : Nat :=
  (c.results.filter (fun r => r.worker == w)).length

/-- Inductive invariant of the interleaving semantics, for a run seeded with
preference list `P` and `W` workers. -/
structure Inv (P : List TeeTimePreference) (W : Nat) (s : Sys) : Prop where
  workers_len : s.workers.length = W
  count_eq : s.coord.booking_count = s.coord.results.length
  handout : s.handed.map Prod.snd ++ s.coord.preference_queue = P
  handed_bound : s.coord.results.length + countAttempting s.workers ≤ s.handed.length
  done_bound : s.coord.results.length ≤ countDone s.workers
  not_done_zero : ∀ i ph, s.workers[i]? = some ph → ph ≠ WorkerPhase.done →
    resultsFor s.coord (i + 1) = 0
  at_most_one : ∀ w, resultsFor s.coord w ≤ 1

/-- First sample preference (the one in the default configuration). -/
def pref1 : TeeTimePreference :=
  { priority := 1, time := "8:07", hole := 10, holes_to_play := 18, transport := "CART" }

/-- Second sample preference. -/
def pref2 : TeeTimePreference :=
  { priority := 2, time := "8:15", hole := 10, holes_to_play := 18, transport := "WALK" }

/-- Setup oracle where every worker's setup succeeds. -/
def setupAllOk : Nat → SetupOutcome := fun _ => SetupOutcome.ok

/-- Claim oracle where every attempt raises an unexpected exception. -/
def oracleAllFault : Nat → TeeTimePreference → ClaimOutcome := fun _ _ => ClaimOutcome.fault

/-- Claim oracle where every target is reported unavailable. -/
def oracleAllUnavailable : Nat → TeeTimePreference → ClaimOutcome :=
  fun _ _ => ClaimOutcome.unavailable

/-- Claim oracle where every attempt succeeds with three guests attached. -/
def oracleAllClaimed : Nat → TeeTimePreference → ClaimOutcome :=
  fun _ _ => ClaimOutcome.claimed 3

/-- A concrete mid-run state: one worker holding the first hand-out with one
preference still queued. -/
def sysC5 : Sys :=
  { coord := { preference_queue := [pref2], target_bookings := 1 },
    workers := [WorkerPhase.attempting 0 pref1],
    handed := [(0, pref1)] }

/-! ### Helper lemmas about phases, counts and records -/

theorem isDone_false_of_ne {ph : WorkerPhase} (h : ph ≠ WorkerPhase.done) :
    isDone ph = false := by
  cases ph <;> simp_all [isDone]

theorem countP_set_add {α : Type} (p : α → Bool) (l : List α) (i : Nat) (a b : α)
    (h : l[i]? = some b) :
    (l.set i a).countP p + (if p b then 1 else 0) = l.countP p + (if p a then 1 else 0) := by
  induction l generalizing i with
  | nil => simp at h
  | cons x xs ih =>
    cases i with
    | zero =>
      simp only [List.getElem?_cons_zero, Option.some.injEq] at h
      subst h
      simp only [List.set_cons_zero, List.countP_cons]
      omega
    | succ j =>
      simp only [List.getElem?_cons_succ] at h
      have hj := ih j h
      simp only [List.set_cons_succ, List.countP_cons]
      omega

theorem countP_replicate_false {α : Type} (p : α → Bool) (a : α) (h : p a = false) (n : Nat) :
    (List.replicate n a).countP p = 0 := by
  induction n with
  | zero => rfl
  | succ k ih => simp [List.replicate_succ, List.countP_cons, h, ih]

theorem resultsFor_record_success (c : BookingCoordinator) (wid : Nat)
    (pref : TeeTimePreference) (g : Nat) (w : Nat) :
    resultsFor (record_success c wid pref g) w
      = resultsFor c w + (if wid = w then 1 else 0) := by
  rcases eq_or_ne wid w with h | h <;>
    simp [resultsFor, record_success, List.filter_append, h]

/-! ### Preservation of the invariant by each atomic step -/

theorem Inv.phase_change {P : List TeeTimePreference} {W : Nat} {s : Sys} (inv : Inv P W s)
    {i : Nat} {ph : WorkerPhase} (hw : s.workers[i]? = some ph) (hnd : ph ≠ WorkerPhase.done)
    (ph' : WorkerPhase) (hatt : isAttempting ph' = false)
    (c' : BookingCoordinator)
    (hq : c'.preference_queue = s.coord.preference_queue)
    (hb : c'.booking_count = s.coord.booking_count)
    (hr : c'.results = s.coord.results) :
    Inv P W { coord := c', workers := s.workers.set i ph', handed := s.handed } := by
  have hi : i < s.workers.length := by
    rcases List.getElem?_eq_some.mp hw with ⟨h1, _⟩
    exact h1
  have hca := countP_set_add isAttempting s.workers i ph' ph hw
  have hcd := countP_set_add isDone s.workers i ph' ph hw
  have hdone : isDone ph = false := isDone_false_of_ne hnd
  have hrw : ∀ w, resultsFor c' w = resultsFor s.coord w := by
    intro w
    simp [resultsFor, hr]
  constructor
  · simpa [List.length_set] using inv.workers_len
  · simp [hb, hr, inv.count_eq]
  · simpa [hq] using inv.handout
  · have h1 := inv.handed_bound
    have h2 : c'.results.length = s.coord.results.length := by rw [hr]
    rw [hatt] at hca
    simp only [Bool.false_eq_true, if_false] at hca
    simp only [countAttempting] at h1 hca ⊢
    omega
  · have h1 := inv.done_bound
    have h2 : c'.results.length = s.coord.results.length := by rw [hr]
    rw [hdone] at hcd
    simp only [Bool.false_eq_true, if_false] at hcd
    simp only [countDone] at h1 hcd ⊢
    omega
  · intro j ph2 hj hne
    rw [hrw]
    rcases eq_or_ne j i with rfl | hji
    · rw [List.getElem?_set_self hi] at hj
      exact inv.not_done_zero j ph hw hnd
    · rw [List.getElem?_set_ne (Ne.symm hji)] at hj
      exact inv.not_done_zero j ph2 hj hne
  · intro w
    rw [hrw]
    exact inv.at_most_one w

theorem Inv.take_step {P : List TeeTimePreference} {W : Nat} {s : Sys} (inv : Inv P W s)
    {i : Nat} (hw : s.workers[i]? = some WorkerPhase.taking)
    {pref : TeeTimePreference} {rest : List TeeTimePreference}
    (hq : s.coord.preference_queue = pref :: rest) :
    Inv P W { coord := { s.coord with preference_queue := rest },
              workers := s.workers.set i (WorkerPhase.attempting s.handed.length pref),
              handed := s.handed ++ [(i, pref)] } := by
  have hi : i < s.workers.length := by
    rcases List.getElem?_eq_some.mp hw with ⟨h1, _⟩
    exact h1
  have hca := countP_set_add isAttempting s.workers i
    (WorkerPhase.attempting s.handed.length pref) WorkerPhase.taking hw
  have hcd := countP_set_add isDone s.workers i
    (WorkerPhase.attempting s.handed.length pref) WorkerPhase.taking hw
  constructor
  · simpa [List.length_set] using inv.workers_len
  · exact inv.count_eq
  · have h1 := inv.handout
    rw [hq] at h1
    simpa [List.map_append] using h1
  · have h1 := inv.handed_bound
    simp only [isAttempting, if_true, Bool.false_eq_true, if_false] at hca
    simp only [countAttempting] at h1 hca ⊢
    simp only [List.length_append, List.length_cons, List.length_nil]
    omega
  · have h1 := inv.done_bound
    simp only [isDone, Bool.false_eq_true, if_false] at hcd
    simp only [countDone] at h1 hcd ⊢
    omega
  · intro j ph2 hj hne
    rcases eq_or_ne j i with rfl | hji
    · exact inv.not_done_zero j WorkerPhase.taking hw (by intro h; cases h)
    · rw [List.getElem?_set_ne (Ne.symm hji)] at hj
      exact inv.not_done_zero j ph2 hj hne
  · exact inv.at_most_one

theorem Inv.success_step {P : List TeeTimePreference} {W : Nat} {s : Sys} (inv : Inv P W s)
    {i idx : Nat} {pref : TeeTimePreference}
    (hw : s.workers[i]? = some (WorkerPhase.attempting idx pref)) (g : Nat) :
    Inv P W { coord := record_success s.coord (i + 1) pref g,
              workers := s.workers.set i WorkerPhase.done,
              handed := s.handed } := by
  have hi : i < s.workers.length := by
    rcases List.getElem?_eq_some.mp hw with ⟨h1, _⟩
    exact h1
  have hca := countP_set_add isAttempting s.workers i WorkerPhase.done
    (WorkerPhase.attempting idx pref) hw
  have hcd := countP_set_add isDone s.workers i WorkerPhase.done
    (WorkerPhase.attempting idx pref) hw
  have hz : resultsFor s.coord (i + 1) = 0 :=
    inv.not_done_zero i (WorkerPhase.attempting idx pref) hw (by intro h; cases h)
  have hlen : (record_success s.coord (i + 1) pref g).results.length
      = s.coord.results.length + 1 := by
    simp [record_success]
  constructor
  · simpa [List.length_set] using inv.workers_len
  · simp [record_success, inv.count_eq]
  · exact inv.handout
  · have h1 := inv.handed_bound
    simp only [isAttempting, if_true, Bool.false_eq_true, if_false] at hca
    simp only [countAttempting] at h1 hca ⊢
    omega
  · have h1 := inv.done_bound
    simp only [isDone, if_true, Bool.false_eq_true, if_false] at hcd
    simp only [countDone] at h1 hcd ⊢
    omega
  · intro j ph2 hj hne
    rcases eq_or_ne j i with rfl | hji
    · rw [List.getElem?_set_self hi] at hj
      have h2 : WorkerPhase.done = ph2 := by
        injection hj
      exact absurd h2.symm hne
    · rw [List.getElem?_set_ne (Ne.symm hji)] at hj
      have h0 := inv.not_done_zero j ph2 hj hne
      rw [resultsFor_record_success]
      rw [if_neg (by omega : ¬ i + 1 = j + 1)]
      omega
  · intro w
    rw [resultsFor_record_success]
    rcases eq_or_ne (i + 1) w with rfl | hne
    · rw [if_pos rfl]
      omega
    · rw [if_neg hne]
      have h1 := inv.at_most_one w
      omega

theorem Inv.step {P : List TeeTimePreference} {W : Nat} {s : Sys} (inv : Inv P W s)
    (sOr : Nat → SetupOutcome) (oc : Nat → TeeTimePreference → ClaimOutcome) (i : Nat) :
    Inv P W (stepW sOr oc s i) := by
  unfold stepW
  split
  case _ hw =>
    split
    · exact inv.phase_change hw (by intro h; cases h) WorkerPhase.checking rfl s.coord rfl rfl rfl
    · exact inv.phase_change hw (by intro h; cases h) WorkerPhase.done rfl _ rfl rfl rfl
    · exact inv.phase_change hw (by intro h; cases h) WorkerPhase.done rfl _ rfl rfl rfl
    · exact inv.phase_change hw (by intro h; cases h) WorkerPhase.done rfl _ rfl rfl rfl
    · exact inv.phase_change hw (by intro h; cases h) WorkerPhase.done rfl s.coord rfl rfl rfl
  case _ hw =>
    split
    · exact inv.phase_change hw (by intro h; cases h) WorkerPhase.done rfl s.coord rfl rfl rfl
    · exact inv.phase_change hw (by intro h; cases h) WorkerPhase.taking rfl s.coord rfl rfl rfl
  case _ hw =>
    split
    case _ hq => exact inv.phase_change hw (by intro h; cases h) WorkerPhase.done rfl s.coord rfl rfl rfl
    case _ pref rest hq => exact inv.take_step hw hq
  case _ idx pref hw =>
    split
    case _ g hoc => exact inv.success_step hw g
    case _ hoc =>
      exact inv.phase_change hw (by intro h; cases h) WorkerPhase.checking rfl _ rfl rfl rfl
    case _ hoc => exact inv.phase_change hw (by intro h; cases h) WorkerPhase.done rfl s.coord rfl rfl rfl
  case _ hw => exact inv
  case _ hw => exact inv

theorem Inv.run {P : List TeeTimePreference} {W : Nat} {s : Sys} (inv : Inv P W s)
    (sOr : Nat → SetupOutcome) (oc : Nat → TeeTimePreference → ClaimOutcome)
    (sched : List Nat) :
    Inv P W (runSched sOr oc sched s) := by
  induction sched generalizing s with
  | nil => exact inv
  | cons a t ih => exact ih (inv.step sOr oc a)

theorem inv_init (P : List TeeTimePreference) (n : Int) (W : Nat) :
    Inv P W (initSys P n W) := by
  constructor
  · simp [initSys]
  · rfl
  · rfl
  · simp [initSys, countAttempting, countP_replicate_false isAttempting WorkerPhase.setup rfl]
  · simp [initSys]
  · intro j ph hj hne
    rfl
  · intro w
    simp [resultsFor, initSys]

/-! ### Queue monotonicity helpers -/

theorem stepW_queue_suffix (sOr : Nat → SetupOutcome)
    (oc : Nat → TeeTimePreference → ClaimOutcome) (s : Sys) (i : Nat) :
    ∃ t, t ++ (stepW sOr oc s i).coord.preference_queue = s.coord.preference_queue := by
  unfold stepW
  split
  · split
    · exact ⟨[], rfl⟩
    · exact ⟨[], rfl⟩
    · exact ⟨[], rfl⟩
    · exact ⟨[], rfl⟩
    · exact ⟨[], rfl⟩
  · split
    · exact ⟨[], rfl⟩
    · exact ⟨[], rfl⟩
  · split
    · exact ⟨[], rfl⟩
    case _ pref rest hq => exact ⟨[pref], hq.symm⟩
  · split
    · exact ⟨[], rfl⟩
    · exact ⟨[], rfl⟩
    · exact ⟨[], rfl⟩
  · exact ⟨[], rfl⟩
  · exact ⟨[], rfl⟩

theorem runSched_queue_suffix (sOr : Nat → SetupOutcome)
    (oc : Nat → TeeTimePreference → ClaimOutcome) (sched : List Nat) (s : Sys) :
    ∃ t, t ++ (runSched sOr oc sched s).coord.preference_queue
      = s.coord.preference_queue := by
  induction sched generalizing s with
  | nil => exact ⟨[], rfl⟩
  | cons a tl ih =>
    obtain ⟨t1, h1⟩ := stepW_queue_suffix sOr oc s a
    obtain ⟨t2, h2⟩ := ih (stepW sOr oc s a)
    refine ⟨t1 ++ t2, ?_⟩
    show t1 ++ t2 ++ (runSched sOr oc tl (stepW sOr oc s a)).coord.preference_queue
      = s.coord.preference_queue
    rw [List.append_assoc, h2, h1]

theorem stepW_handed_mono (sOr : Nat → SetupOutcome)
    (oc : Nat → TeeTimePreference → ClaimOutcome) (s : Sys) (i : Nat) :
    ∃ t, (stepW sOr oc s i).handed = s.handed ++ t := by
  unfold stepW
  split
  · split
    · exact ⟨[], (List.append_nil _).symm⟩
    · exact ⟨[], (List.append_nil _).symm⟩
    · exact ⟨[], (List.append_nil _).symm⟩
    · exact ⟨[], (List.append_nil _).symm⟩
    · exact ⟨[], (List.append_nil _).symm⟩
  · split
    · exact ⟨[], (List.append_nil _).symm⟩
    · exact ⟨[], (List.append_nil _).symm⟩
  · split
    · exact ⟨[], (List.append_nil _).symm⟩
    case _ pref rest hq => exact ⟨[(i, pref)], rfl⟩
  · split
    · exact ⟨[], (List.append_nil _).symm⟩
    · exact ⟨[], (List.append_nil _).symm⟩
    · exact ⟨[], (List.append_nil _).symm⟩
  · exact ⟨[], (List.append_nil _).symm⟩
  · exact ⟨[], (List.append_nil _).symm⟩

theorem runSched_handed_mono (sOr : Nat → SetupOutcome)
    (oc : Nat → TeeTimePreference → ClaimOutcome) (sched : List Nat) (s : Sys) :
    ∃ t, (runSched sOr oc sched s).handed = s.handed ++ t := by
  induction sched generalizing s with
  | nil => exact ⟨[], (List.append_nil _).symm⟩
  | cons a tl ih =>
    obtain ⟨t1, h1⟩ := stepW_handed_mono sOr oc s a
    obtain ⟨t2, h2⟩ := ih (stepW sOr oc s a)
    refine ⟨t1 ++ t2, ?_⟩
    show (runSched sOr oc tl (stepW sOr oc s a)).handed = s.handed ++ (t1 ++ t2)
    rw [h2, h1, List.append_assoc]

/-! ### Coordinator operation sequences -/

theorem applyOp_preserves_count (c : BookingCoordinator) (op : CoordOp)
    (h : c.booking_count = c.results.length) :
    (applyOp c op).booking_count = (applyOp c op).results.length := by
  cases op with
  | success w p g => simp [applyOp, record_success, h]
  | failure w p r => simpa [applyOp, record_failure] using h
  | query => exact h

theorem applyOps_preserves_count (ops : List CoordOp) (c : BookingCoordinator)
    (h : c.booking_count = c.results.length) :
    (applyOps ops c).booking_count = (applyOps ops c).results.length := by
  induction ops generalizing c with
  | nil => exact h
  | cons op tl ih => exact ih (applyOp c op) (applyOp_preserves_count c op h)

/-! ### Claim theorems -/

/-- C1 (counterexample): the claim's three-way status is not what the code
computes.  In a completed all-unavailable run (both workers terminated) with
success count 0 the report status is the string "partial", where the claim
demands "failed"; and in a completed run meeting its target the status is
"ok", where the claim demands "complete".  The strings "failed" and
"complete" never appear in `run_parallel_booking` (lines 260-266). -/
theorem C1_status_counterexample :
    (run_parallel_booking setupAllOk oracleAllUnavailable
      [0, 0, 0, 0, 0, 0, 0, 0, 0, 1, 1, 1]
      { tee_times_to_book := 2, preferences := [pref1, pref2] }).report.booked_count = 0 ∧
    (run_parallel_booking setupAllOk oracleAllUnavailable
      [0, 0, 0, 0, 0, 0, 0, 0, 0, 1, 1, 1]
      { tee_times_to_book := 2, preferences := [pref1, pref2] }).report.status = "partial" ∧
    ((run_parallel_booking setupAllOk oracleAllUnavailable
      [0, 0, 0, 0, 0, 0, 0, 0, 0, 1, 1, 1]
      { tee_times_to_book := 2, preferences := [pref1, pref2] }).final.map Sys.workers)
      = some [WorkerPhase.done, WorkerPhase.done] ∧
    (run_parallel_booking setupAllOk oracleAllClaimed [0, 0, 0, 0]
      { tee_times_to_book := 1, preferences := [pref1] }).report.booked_count = 1 ∧
    (run_parallel_booking setupAllOk oracleAllClaimed [0, 0, 0, 0]
      { tee_times_to_book := 1, preferences := [pref1] }).report.status = "ok" := by
  decide

/-- C1 (amended): for every completed run of the orchestrator, the final
report's status is "ok" if the recorded success count is at least the target
and "partial" otherwise — including when the success count is 0; the report
includes the full success and failure record lists and the originally
requested target count. -/
theorem C1_report_from_coordinator_amended (sOr : Nat → SetupOutcome)
    (oc : Nat → TeeTimePreference → ClaimOutcome) (sched : List Nat)
    (config : TeeTimeConfig) (hn : 0 < config.tee_times_to_book)
    (hp : config.preferences ≠ []) :
    ∃ s, (run_parallel_booking sOr oc sched config).final = some s ∧
      (run_parallel_booking sOr oc sched config).report.status
        = (if config.tee_times_to_book ≤ (s.coord.booking_count : Int) then "ok"
           else "partial") ∧
      (run_parallel_booking sOr oc sched config).report.requested
        = config.tee_times_to_book ∧
      (run_parallel_booking sOr oc sched config).report.booked_count
        = s.coord.booking_count ∧
      (run_parallel_booking sOr oc sched config).report.booked = s.coord.results ∧
      (run_parallel_booking sOr oc sched config).report.unavailable = s.coord.errors := by
  have hcond : ¬(config.tee_times_to_book ≤ 0 ∨ config.preferences = []) := by
    push_neg
    exact ⟨hn, hp⟩
  refine ⟨runSched sOr oc sched (initSys config.preferences config.tee_times_to_book
    (min config.tee_times_to_book (config.preferences.length : Int)).toNat),
    ?_, ?_, ?_, ?_, ?_, ?_⟩ <;>
    simp [run_parallel_booking, hcond]

/-- C1 witness: a concrete completed run meeting its target, instantiating the
amended report theorem. -/
theorem C1_report_from_coordinator_amended_witness :
    ∃ s, (run_parallel_booking setupAllOk oracleAllClaimed [0, 0, 0, 0]
        { tee_times_to_book := 1, preferences := [pref1] }).final = some s ∧
      (run_parallel_booking setupAllOk oracleAllClaimed [0, 0, 0, 0]
        { tee_times_to_book := 1, preferences := [pref1] }).report.status
        = (if (1 : Int) ≤ (s.coord.booking_count : Int) then "ok" else "partial") ∧
      (run_parallel_booking setupAllOk oracleAllClaimed [0, 0, 0, 0]
        { tee_times_to_book := 1, preferences := [pref1] }).report.requested = 1 ∧
      (run_parallel_booking setupAllOk oracleAllClaimed [0, 0, 0, 0]
        { tee_times_to_book := 1, preferences := [pref1] }).report.booked_count
        = s.coord.booking_count ∧
      (run_parallel_booking setupAllOk oracleAllClaimed [0, 0, 0, 0]
        { tee_times_to_book := 1, preferences := [pref1] }).report.booked
        = s.coord.results ∧
      (run_parallel_booking setupAllOk oracleAllClaimed [0, 0, 0, 0]
        { tee_times_to_book := 1, preferences := [pref1] }).report.unavailable
        = s.coord.errors :=
  C1_report_from_coordinator_amended setupAllOk oracleAllClaimed [0, 0, 0, 0]
    { tee_times_to_book := 1, preferences := [pref1] } (by decide) (by decide)

/-- C2: in every interleaving of the run started by the orchestrator, every
worker records at most one success (its competing loop breaks at the first
successful claim, line 185), and the total number of success records never
exceeds `min(target count, number of preferences)` — even though the
`target_reached` check at line 161 is a separate atomic step from the
subsequent take and claim. -/
theorem C2_at_most_one_success_per_worker (sOr : Nat → SetupOutcome)
    (oc : Nat → TeeTimePreference → ClaimOutcome) (sched : List Nat)
    (config : TeeTimeConfig) (hn : 0 < config.tee_times_to_book)
    (hp : config.preferences ≠ []) :
    ∃ s, (run_parallel_booking sOr oc sched config).final = some s ∧
      (∀ w, resultsFor s.coord w ≤ 1) ∧
      s.coord.results.length
        ≤ min config.tee_times_to_book.toNat config.preferences.length := by
  have hcond : ¬(config.tee_times_to_book ≤ 0 ∨ config.preferences = []) := by
    push_neg
    exact ⟨hn, hp⟩
  refine ⟨runSched sOr oc sched (initSys config.preferences config.tee_times_to_book
    (min config.tee_times_to_book (config.preferences.length : Int)).toNat), ?_, ?_, ?_⟩
  · simp [run_parallel_booking, hcond]
  · exact fun w =>
      ((inv_init config.preferences config.tee_times_to_book _).run sOr oc sched).at_most_one w
  · have inv := (inv_init config.preferences config.tee_times_to_book
      (min config.tee_times_to_book (config.preferences.length : Int)).toNat).run sOr oc sched
    have h1 := inv.done_bound
    have h2 := List.countP_le_length (l :=
      (runSched sOr oc sched (initSys config.preferences config.tee_times_to_book
        (min config.tee_times_to_book (config.preferences.length : Int)).toNat)).workers)
      (p := isDone)
    have h3 := inv.workers_len
    have h4 := inv.handed_bound
    have h5 := congrArg List.length inv.handout
    simp only [List.length_append, List.length_map] at h5
    simp only [countDone] at h1 h2
    omega

/-- C2 witness: a concrete run with one worker and one preference. -/
theorem C2_at_most_one_success_per_worker_witness :
    ∃ s, (run_parallel_booking setupAllOk oracleAllClaimed [0, 0, 0, 0]
        { tee_times_to_book := 1, preferences := [pref1] }).final = some s ∧
      (∀ w, resultsFor s.coord w ≤ 1) ∧
      s.coord.results.length ≤ min (1 : Int).toNat [pref1].length :=
  C2_at_most_one_success_per_worker setupAllOk oracleAllClaimed [0, 0, 0, 0]
    { tee_times_to_book := 1, preferences := [pref1] } (by decide) (by decide)

/-- C3: in every interleaving and for every seeded list, the hand-out log and
the remaining queue always partition the seeded preference list in order
(each seeded preference is dequeued atomically, at most once, to exactly one
worker, in FIFO seed order); moreover along any continuation of the run the
queue only loses a front segment (nothing — in particular no failed
preference — is ever re-inserted) and the hand-out log only grows at the
end. -/
theorem C3_queue_exactly_once_fifo (sOr : Nat → SetupOutcome)
    (oc : Nat → TeeTimePreference → ClaimOutcome) (P : List TeeTimePreference)
    (n : Int) (W : Nat) (sched extra : List Nat) :
    ((runSched sOr oc sched (initSys P n W)).handed.map Prod.snd)
        ++ (runSched sOr oc sched (initSys P n W)).coord.preference_queue = P ∧
    (∃ t, t ++ (runSched sOr oc (sched ++ extra) (initSys P n W)).coord.preference_queue
        = (runSched sOr oc sched (initSys P n W)).coord.preference_queue) ∧
    (∃ t, (runSched sOr oc (sched ++ extra) (initSys P n W)).handed
        = (runSched sOr oc sched (initSys P n W)).handed ++ t) := by
  refine ⟨((inv_init P n W).run sOr oc sched).handout, ?_, ?_⟩
  · have h := runSched_queue_suffix sOr oc extra (runSched sOr oc sched (initSys P n W))
    simp only [runSched, List.foldl_append] at h ⊢
    exact h
  · have h := runSched_handed_mono sOr oc extra (runSched sOr oc sched (initSys P n W))
    simp only [runSched, List.foldl_append] at h ⊢
    exact h

/-- C4: after every lock-serialized interleaving of `record_success`,
`record_failure` and `target_reached` calls on a fresh coordinator, the
success count `booking_count` equals the length of the success-record list
`results`.  Each call is a single atomic transformation because every
mutation in the Python class happens under the one `threading.Lock`, so any
reader observes a consistent snapshot. -/
theorem C4_coordinator_count_invariant (ops : List CoordOp)
    (prefs : List TeeTimePreference) (n : Int) :
    (applyOps ops { preference_queue := prefs, target_bookings := n }).booking_count
      = (applyOps ops { preference_queue := prefs, target_bookings := n }).results.length :=
  applyOps_preserves_count ops _ rfl

/-- C5 (counterexample): with an oracle that makes the first claim attempt
raise, the single worker of a concrete run terminates with an empty error
list — no `record_failure` with reason "session error" (or any reason) — and
the second preference is still in the queue, so the competing loop was not
re-entered after the fault. -/
theorem C5_fault_counterexample :
    ((run_parallel_booking setupAllOk oracleAllFault [0, 0, 0, 0]
      { tee_times_to_book := 1, preferences := [pref1, pref2] }).final.map
        (fun s => (s.coord.errors, s.coord.preference_queue, s.workers)))
      = some ([], [pref2], [WorkerPhase.done]) := by
  decide

/-- C5 (amended): when a claim attempt raises an unexpected fault, the
exception escapes the competing loop to the worker's outer handler (line
190), which only logs: the worker terminates with the coordinator state
unchanged — no failure record of any kind — and does not re-enter the loop
(the queue and hand-out log are untouched). -/
theorem C5_fault_aborts_worker_amended (sOr : Nat → SetupOutcome)
    (oc : Nat → TeeTimePreference → ClaimOutcome) (s : Sys) (i idx : Nat)
    (pref : TeeTimePreference)
    (hw : s.workers[i]? = some (WorkerPhase.attempting idx pref))
    (hf : oc idx pref = ClaimOutcome.fault) :
    (stepW sOr oc s i).coord = s.coord ∧
    (stepW sOr oc s i).workers = s.workers.set i WorkerPhase.done ∧
    (stepW sOr oc s i).handed = s.handed := by
  refine ⟨?_, ?_, ?_⟩ <;> simp [stepW, hw, hf, setWorker]

/-- C5 witness: the amended fault behaviour at a concrete mid-run state. -/
theorem C5_fault_aborts_worker_amended_witness :
    (stepW setupAllOk oracleAllFault sysC5 0).coord = sysC5.coord ∧
    (stepW setupAllOk oracleAllFault sysC5 0).workers
      = sysC5.workers.set 0 WorkerPhase.done ∧
    (stepW setupAllOk oracleAllFault sysC5 0).handed = sysC5.handed :=
  C5_fault_aborts_worker_amended setupAllOk oracleAllFault sysC5 0 0 pref1
    (by decide) rfl

/-- C6: for every configuration with positive target count and non-empty
preference list, the orchestrator spawns exactly
`min(target count, number of preferences)` workers — never more than the
preferences available and never more than the successes desired
(line 241). -/
theorem C6_worker_count (sOr : Nat → SetupOutcome)
    (oc : Nat → TeeTimePreference → ClaimOutcome) (sched : List Nat)
    (config : TeeTimeConfig) (hn : 0 < config.tee_times_to_book)
    (hp : config.preferences ≠ []) :
    (run_parallel_booking sOr oc sched config).num_workers
        = min config.tee_times_to_book.toNat config.preferences.length ∧
    (run_parallel_booking sOr oc sched config).num_workers
        ≤ config.preferences.length ∧
    (run_parallel_booking sOr oc sched config).num_workers
        ≤ config.tee_times_to_book.toNat := by
  have hcond : ¬(config.tee_times_to_book ≤ 0 ∨ config.preferences = []) := by
    push_neg
    exact ⟨hn, hp⟩
  have hnum : (run_parallel_booking sOr oc sched config).num_workers
      = (min config.tee_times_to_book (config.preferences.length : Int)).toNat := by
    simp [run_parallel_booking, hcond]
  refine ⟨?_, ?_, ?_⟩ <;> rw [hnum] <;> omega

/-- C6 witness: a concrete configuration with target 1 and two preferences. -/
theorem C6_worker_count_witness :
    (run_parallel_booking setupAllOk oracleAllClaimed []
        { tee_times_to_book := 1, preferences := [pref1, pref2] }).num_workers
        = min (1 : Int).toNat [pref1, pref2].length ∧
    (run_parallel_booking setupAllOk oracleAllClaimed []
        { tee_times_to_book := 1, preferences := [pref1, pref2] }).num_workers
        ≤ [pref1, pref2].length ∧
    (run_parallel_booking setupAllOk oracleAllClaimed []
        { tee_times_to_book := 1, preferences := [pref1, pref2] }).num_workers
        ≤ (1 : Int).toNat :=
  C6_worker_count setupAllOk oracleAllClaimed []
    { tee_times_to_book := 1, preferences := [pref1, pref2] } (by decide) (by decide)

/-- C7: when the target count is non-positive or the preference list is
empty, `run_parallel_booking` returns the error report immediately (lines
221-229): status "error", zero workers spawned, no run state — hence no
session — created, and empty success and failure record lists. -/
theorem C7_validation_error_path (sOr : Nat → SetupOutcome)
    (oc : Nat → TeeTimePreference → ClaimOutcome) (sched : List Nat)
    (config : TeeTimeConfig)
    (h : config.tee_times_to_book ≤ 0 ∨ config.preferences = []) :
    (run_parallel_booking sOr oc sched config).report.status = "error" ∧
    (run_parallel_booking sOr oc sched config).num_workers = 0 ∧
    (run_parallel_booking sOr oc sched config).final = none ∧
    (run_parallel_booking sOr oc sched config).report.booked = [] ∧
    (run_parallel_booking sOr oc sched config).report.unavailable = [] ∧
    (run_parallel_booking sOr oc sched config).report.booked_count = 0 ∧
    (run_parallel_booking sOr oc sched config).report.requested
      = config.tee_times_to_book := by
  refine ⟨?_, ?_, ?_, ?_, ?_, ?_, ?_⟩ <;> simp [run_parallel_booking, h]

/-- C7 witness: a concrete run with target 0. -/
theorem C7_validation_error_path_witness :
    (run_parallel_booking setupAllOk oracleAllClaimed [0]
        { tee_times_to_book := 0, preferences := [pref1] }).report.status = "error" ∧
    (run_parallel_booking setupAllOk oracleAllClaimed [0]
        { tee_times_to_book := 0, preferences := [pref1] }).num_workers = 0 ∧
    (run_parallel_booking setupAllOk oracleAllClaimed [0]
        { tee_times_to_book := 0, preferences := [pref1] }).final = none ∧
    (run_parallel_booking setupAllOk oracleAllClaimed [0]
        { tee_times_to_book := 0, preferences := [pref1] }).report.booked = [] ∧
    (run_parallel_booking setupAllOk oracleAllClaimed [0]
        { tee_times_to_book := 0, preferences := [pref1] }).report.unavailable = [] ∧
    (run_parallel_booking setupAllOk oracleAllClaimed [0]
        { tee_times_to_book := 0, preferences := [pref1] }).report.booked_count = 0 ∧
    (run_parallel_booking setupAllOk oracleAllClaimed [0]
        { tee_times_to_book := 0, preferences := [pref1] }).report.requested = 0 :=
  C7_validation_error_path setupAllOk oracleAllClaimed [0]
    { tee_times_to_book := 0, preferences := [pref1] } (Or.inl (by decide))

/-- C8: for every current wall clock and every open-time string parsing to a
valid hour and minute, the release gate computes the signed duration from
now to the open instant on the current day, in the same fixed zone; it
suspends the caller for exactly that duration when the duration is positive
and returns immediately without suspension otherwise (lines 90-104). -/
theorem C8_release_gate (now : NowET) (tee_time_open : String) (oh om : Int)
    (hparse : _parse_open_time tee_time_open = some (oh, om))
    (h0 : 0 ≤ oh) (h23 : oh ≤ 23) (h0m : 0 ≤ om) (h59 : om ≤ 59) :
    (0 < (oh * 3600 + om * 60) * 1000000 - nowUsec now →
      _wait_until_open now tee_time_open
        = some (GateAction.sleep ((oh * 3600 + om * 60) * 1000000 - nowUsec now))) ∧
    ((oh * 3600 + om * 60) * 1000000 - nowUsec now ≤ 0 →
      _wait_until_open now tee_time_open = some GateAction.proceed) := by
  have hrange : ¬(oh < 0 ∨ 23 < oh ∨ om < 0 ∨ 59 < om) := by omega
  constructor
  · intro hpos
    simp [_wait_until_open, hparse, hrange, hpos]
  · intro hnonpos
    simp [_wait_until_open, hparse, hrange, not_lt.mpr hnonpos]

/-- C8 witness: the gate at 5:30:00 AM against an open time of "06:00". -/
theorem C8_release_gate_witness :
    (0 < ((6 : Int) * 3600 + 0 * 60) * 1000000 - nowUsec ⟨5, 30, 0, 0⟩ →
      _wait_until_open ⟨5, 30, 0, 0⟩ "06:00"
        = some (GateAction.sleep
            (((6 : Int) * 3600 + 0 * 60) * 1000000 - nowUsec ⟨5, 30, 0, 0⟩))) ∧
    (((6 : Int) * 3600 + 0 * 60) * 1000000 - nowUsec ⟨5, 30, 0, 0⟩ ≤ 0 →
      _wait_until_open ⟨5, 30, 0, 0⟩ "06:00" = some GateAction.proceed) :=
  C8_release_gate ⟨5, 30, 0, 0⟩ "06:00" 6 0 (by decide) (by decide) (by decide)
    (by decide) (by decide)

/-- C9: when loading the configuration from Google Sheets raises (any
exception), or when no sheet id is supplied, the entry point falls back to
`get_default_config` — target 1 with a single priority-1 preference — and
continues the run with that configuration rather than aborting
(lambda_handler.py lines 33-43, config_reader.py lines 131-138). -/
theorem C9_config_fallback (sid msg : String) (fetch : String → SheetsResult)
    (h : fetch sid = SheetsResult.exn msg) :
    selectConfig (some sid) fetch = get_default_config ∧
    selectConfig none fetch = get_default_config ∧
    get_default_config.tee_times_to_book = 1 ∧
    get_default_config.preferences
      = [{ priority := 1, time := "8:07", hole := 10, holes_to_play := 18,
           transport := "CART" }] := by
  refine ⟨?_, rfl, rfl, rfl⟩
  by_cases hsid : sid = ""
  · simp [selectConfig, hsid]
  · simp [selectConfig, hsid, h]

/-- C9 witness: a concrete failing fetch. -/
theorem C9_config_fallback_witness :
    selectConfig (some "sheet-id") (fun _ => SheetsResult.exn "boom")
      = get_default_config ∧
    selectConfig none (fun _ => SheetsResult.exn "boom") = get_default_config ∧
    get_default_config.tee_times_to_book = 1 ∧
    get_default_config.preferences
      = [{ priority := 1, time := "8:07", hole := 10, holes_to_play := 18,
           transport := "CART" }] :=
  C9_config_fallback "sheet-id" "boom" (fun _ => SheetsResult.exn "boom") rfl

/-- C10: for every valid input form (today, a date, a datetime, or a parsed
`YYYY-MM-DD` string), `get_next_saturday` returns a Saturday that is strictly
later than the base date and at most 7 days after it, and when the base date
is itself a Saturday the result is exactly 7 days later — the following
week's Saturday, never the current day (clubhouse_bot.py lines 15-57). -/
theorem C10_next_saturday (d : DateInput) :
    pyWeekday (get_next_saturday d) = 5 ∧
    d.base < get_next_saturday d ∧
    get_next_saturday d ≤ d.base + 7 ∧
    (pyWeekday d.base = 5 → get_next_saturday d = d.base + 7) := by
  simp only [get_next_saturday, pyWeekday]
  refine ⟨?_, ?_, ?_, ?_⟩ <;> split_ifs <;> omega

/-- C10 witness: instantiation at a concrete Saturday ordinal (the conjuncts
include an inner implication, discharged here). -/
theorem C10_next_saturday_witness :
    pyWeekday (get_next_saturday (DateInput.fromDate 738884)) = 5 ∧
    (DateInput.fromDate 738884).base
      < get_next_saturday (DateInput.fromDate 738884) ∧
    get_next_saturday (DateInput.fromDate 738884)
      ≤ (DateInput.fromDate 738884).base + 7 ∧
    (pyWeekday (DateInput.fromDate 738884).base = 5 →
      get_next_saturday (DateInput.fromDate 738884)
        = (DateInput.fromDate 738884).base + 7) :=
  C10_next_saturday (DateInput.fromDate 738884)

end TeeTimeBot
